import Mathlib

/-!
Shallow embedding of the WhoopCoach retrieval / forecasting / goal-math core.

The embedded components are:
* the RAG knowledge-base builder and keyword retriever (`RAGService.buildKnowledgeBase`,
  `RAGService.retrieveRelevantData`);
* the predictive-analytics engine (`PredictiveAnalytics.generatePredictions` and its four
  forecasters plus the trend / variance / confidence helpers);
* the goal-progress calculator (`GoalSetting.updateGoalProgress`).

Modelling conventions, used throughout:
* JavaScript numbers are modelled as exact rationals (`ℚ`).  None of the claims under
  study depends on IEEE-754 rounding; where a JavaScript expression can produce
  `NaN`/`Infinity` (the goal-progress division) we model the value space explicitly
  with the `JsNum` type, and where a guarded comparison would meet `NaN`/`Infinity`
  (the confidence helper's variance/mean test) the JS outcome of the comparison is
  written out case by case.
* JavaScript strings are modelled as `String`, with the handful of primitives the code
  uses (`toLowerCase`, `includes`, `split(/\s+/)`, `trim`) implemented structurally over
  the character list so that concrete instances evaluate inside the kernel.
* Integer-valued scores stay in `ℤ`, series data in `ℚ`.
-/

namespace WhoopCoach

/-! ### JavaScript string primitives -/

/-- Model of `String.prototype.toLowerCase` (the data in play is ASCII). -/
def jsToLower (s : String) : String := ⟨s.data.map Char.toLower⟩

/-- Model of `String.prototype.includes`: `needle` occurs as a contiguous substring. -/
def jsIncludes (hay needle : String) : Bool :=
  hay.data.tails.any (fun t => needle.data.isPrefixOf t)

/-- Helper for `jsSplitWs`: split a character list into maximal non-whitespace runs. -/
def splitWsAux : List Char → List Char → List String
  | [], acc => if acc.isEmpty then [] else [⟨acc.reverse⟩]
  | c :: cs, acc =>
      if c.isWhitespace then
        (if acc.isEmpty then [] else [(⟨acc.reverse⟩ : String)]) ++ splitWsAux cs []
      else splitWsAux cs (c :: acc)

/-- Model of `str.split(/\s+/)` as the code uses it: the list of whitespace-separated
words.  (JavaScript would additionally yield one empty-string element for a leading
separator; every use in the source only tests membership of non-empty keywords, for
which the two are observationally equal.) -/
def jsSplitWs (s : String) : List String := splitWsAux s.data []

/-- Model of `String.prototype.trim`: strip whitespace from both ends. -/
def jsTrim (s : String) : String :=
  ⟨((s.data.dropWhile Char.isWhitespace).reverse.dropWhile Char.isWhitespace).reverse⟩

/-! ### JavaScript number primitives -/

/-- Truncation toward zero, as JavaScript's `%` uses for its implicit quotient. -/
def ratTrunc (q : ℚ) : ℤ := if 0 ≤ q then ⌊q⌋ else -⌊-q⌋

/-- Model of the JavaScript remainder operator `a % b` on finite operands
(`a - b * trunc(a / b)`, sign following the dividend). -/
def jsMod (a b : ℚ) : ℚ := a - b * ratTrunc (a / b)

/-- Model of `Math.round`: round half toward positive infinity. -/
def jsRound (q : ℚ) : ℤ := ⌊q + 1/2⌋

/-- Decimal rendering of a nonnegative rational to one fractional digit; the
half-away-from-zero carry matches `Number.prototype.toFixed(1)` on the values the
code renders. -/
def toFixed1Nonneg (q : ℚ) : String :=
  let n : ℤ := ⌊q * 10 + 1/2⌋
  toString (n / 10) ++ "." ++ toString (n % 10)

/-- Model of `Number.prototype.toFixed(1)`. -/
def toFixed1 (q : ℚ) : String :=
  if q < 0 then "-" ++ toFixed1Nonneg (-q) else toFixed1Nonneg q

/-- Model of `Number.prototype.toString` for the row values the embedding renders.
It is exact on integers (the only case any claim's statement depends on); a
non-integral rational is rendered as `num/den` in place of JavaScript's decimal
expansion. -/
def ratToString (q : ℚ) : String :=
  if q.den = 1 then toString q.num else toString q.num ++ "/" ++ toString q.den

/-! ### Row values (`dataLoader` output consumed by the core)

A CSV cell is a number, a string, or absent (`null`/`undefined`/missing key are
conflated: every use in the core treats them alike, as falsy values whose
`parseFloat` is `NaN`). -/

inductive Value where
  | num : ℚ → Value
  | str : String → Value
  | null : Value
deriving DecidableEq

/-- JavaScript truthiness of a cell (`0`, `''`, `null`/`undefined` are falsy). -/
def truthyVal : Value → Bool
  | .num q => q ≠ 0
  | .str s => s ≠ ""
  | .null => false

/-- Model of `value.toString()` for a cell.  `.null` is only rendered behind truthiness
guards in the source, so its rendering is never observable. -/
def valToString : Value → String
  | .num q => ratToString q
  | .str s => s
  | .null => ""

/-- Model of `parseFloat(value)` under the loader's contract (spec section 6:
numeric-looking cells are pre-converted to numbers), with `none` standing for `NaN`. -/
def parseFloatVal : Value → Option ℚ
  | .num q => some q
  | .str _ => none
  | .null => none

/-- A metric row: ordered key/value fields, as the loader hands them over. -/
abbrev MetricRow := List (String × Value)

/-- Model of `row[key]` (first matching field; a JS object has unique keys). -/
def rowGet (row : MetricRow) (k : String) : Value :=
  match row.find? (fun p => p.1 == k) with
  | some p => p.2
  | none => .null

/-- Embedding of `PredictiveAnalytics.getMetricData` / `GoalSetting.getMetricData`:
`data.map(row => parseFloat(row[metricName])).filter(val => !isNaN(val))`. -/
def getMetricData (data : List MetricRow) (metricName : String) : List ℚ :=
  data.filterMap (fun row => parseFloatVal (rowGet row metricName))

/-! ### Knowledge-base builder (`RAGService.buildKnowledgeBase`) -/

/-- One knowledge-base entry (`DataPoint` in the source; `content` plus the
`metadata` record, flattened). -/
structure Fact where
  content : String
  date : Option String
  metric : String
  value : String
  source : String
  recency : Option ℤ
deriving DecidableEq

/-- The duration-field test of `buildKnowledgeBase`: the lower-cased key
matches one of the sleep/duration keyword patterns. -/
def isDurationKey (k : String) : Bool :=
  let kl := jsToLower k
  (jsIncludes kl "sleep" && jsIncludes kl "duration") ||
    jsIncludes kl "asleep duration" ||
    jsIncludes kl "awake duration" ||
    jsIncludes kl "in bed duration" ||
    jsIncludes kl "light sleep" ||
    jsIncludes kl "deep" ||
    jsIncludes kl "rem" ||
    jsIncludes kl "sleep need" ||
    jsIncludes kl "sleep debt"

/-- The `Math.floor(minutes / 60)` part of the duration formatter. -/
def durHours (m : ℚ) : ℤ := ⌊m / 60⌋

/-- The `Math.round(minutes % 60)` part of the duration formatter. -/
def durMins (m : ℚ) : ℤ := jsRound (jsMod m 60)

/-- The `"{hours}h {mins}m"` rendering of a minutes count. -/
def formatDuration (m : ℚ) : String :=
  toString (durHours m) ++ "h " ++ toString (durMins m) ++ "m"

/-- The formatted value of one row field: duration-like keys holding a parseable
number are reformatted to hours/minutes, everything else keeps `value.toString()`. -/
def renderFieldValue (k : String) (v : Value) : String :=
  let raw := valToString v
  if isDurationKey k then
    match parseFloatVal v with
    | some minutes => formatDuration minutes
    | none => raw
  else raw

/-- The recency phrase chosen from the row index. -/
def timeContext (idx : ℕ) : String :=
  if idx = 0 then "most recently"
  else if idx = 1 then "recently"
  else if idx < 7 then "in recent days"
  else ""

/-- Embedding of `row.date || "day {index+1}"`: the row's date label with the falsy fallback. -/
def rowDateLabel (row : MetricRow) (idx : ℕ) : String :=
  let v := rowGet row "date"
  if truthyVal v then valToString v else "day " ++ toString (idx + 1)

/-- Embedding of `row._source_file || 'csv_data'`. -/
def rowSource (row : MetricRow) : String :=
  let v := rowGet row "_source_file"
  if truthyVal v then valToString v else "csv_data"

/-- Processing of a single row field inside `buildKnowledgeBase`: provenance keys
are skipped, falsy or blank values are skipped, surviving fields become one Fact. -/
def fieldFact (idx : ℕ) (row : MetricRow) (k : String) (v : Value) : Option Fact :=
  if k = "_source_file" then none
  else if truthyVal v && jsTrim (valToString v) ≠ "" then
    let fv := renderFieldValue k v
    let tc := timeContext idx
    let content :=
      if tc = "" then "On " ++ rowDateLabel row idx ++ ", your " ++ k ++ " was " ++ fv
      else tc ++ ", your " ++ k ++ " was " ++ fv
    some { content := content
           date := some (rowDateLabel row idx)
           metric := k
           value := fv
           source := rowSource row
           recency := some (idx : ℤ) }
  else none

/-- All Facts of one row, in field order. -/
def rowFacts (idx : ℕ) (row : MetricRow) : List Fact :=
  row.filterMap (fun p => fieldFact idx row p.1 p.2)

/-- The indexed traversal of `csvData.forEach((row, index) => ...)`. -/
def csvFactsAux (idx : ℕ) : List MetricRow → List Fact
  | [] => []
  | row :: rest => rowFacts idx row ++ csvFactsAux (idx + 1) rest

/-- The per-row CSV pass of `buildKnowledgeBase` (rows arrive most-recent-first). -/
def csvFacts (rows : List MetricRow) : List Fact := csvFactsAux 0 rows

/-- A current-snapshot summary (`dynamicMetrics` entry). -/
structure Snapshot where
  title : String
  value : String
  subtitle : String
deriving DecidableEq

/-- The `current_metrics` Facts appended after the CSV pass. -/
def snapshotFacts (metrics : List Snapshot) : List Fact :=
  metrics.map (fun m =>
    { content := "Your current " ++ m.title ++ " is " ++ m.value ++ " - " ++ m.subtitle
      date := none
      metric := m.title
      value := m.value
      source := "current_metrics"
      recency := some (-1) })

/-- The sleep-debt filter of `buildKnowledgeBase`:
`record['sleep debt (min)'] !== undefined && !== null && !== ''`.
(A numeric `0` passes this filter.) -/
def hasSleepDebtField (row : MetricRow) : Bool :=
  match rowGet row "sleep debt (min)" with
  | .null => false
  | .str s => s ≠ ""
  | .num _ => true

/-- Embedding of `parseFloat(record['sleep debt (min)']) || 0`. -/
def sleepDebtMinutes (row : MetricRow) : ℚ :=
  match parseFloatVal (rowGet row "sleep debt (min)") with
  | some q => q
  | none => 0

/-- The five-band debt classification of the per-day sleep-debt Facts. -/
def debtStatus (debtMinutes : ℚ) : String :=
  if debtMinutes > 60 then "significant debt"
  else if debtMinutes > 30 then "moderate debt"
  else if debtMinutes > -30 then "balanced"
  else if debtMinutes > -60 then "slight surplus"
  else "significant surplus"

/-- The relative time phrase of the per-day sleep-debt Facts. -/
def debtTimeRef (idx : ℕ) : String :=
  if idx = 0 then "most recent night"
  else toString idx ++ " " ++ (if idx = 1 then "day" else "days") ++ " ago"

/-- One `sleep_debt_tracking` Fact. -/
def sleepDebtFact (idx : ℕ) (row : MetricRow) : Fact :=
  let debtMinutes := sleepDebtMinutes row
  let debtHours := |debtMinutes| / 60
  { content := "Sleep debt " ++ debtTimeRef idx ++ ": " ++
      (if debtMinutes ≥ 0 then "+" else "") ++ toFixed1 debtHours ++ " hours (" ++
      debtStatus debtMinutes ++ ")"
    date := match rowGet row "date" with
            | .null => none
            | v => some (valToString v)
    metric := "Sleep Debt Analysis"
    value := ratToString debtMinutes
    source := "sleep_debt_tracking"
    recency := some (idx : ℤ) }

/-- The indexed traversal of `sleepDebtEntries.forEach((record, index) => ...)`. -/
def sleepDebtFactsAux (idx : ℕ) : List MetricRow → List Fact
  | [] => []
  | row :: rest => sleepDebtFact idx row :: sleepDebtFactsAux (idx + 1) rest

/-- The accumulating/maintaining/surplus classification of the trend Fact. -/
def debtTrendStatus (avgDailyDebt : ℚ) : String :=
  if avgDailyDebt > 30 then "accumulating debt"
  else if avgDailyDebt > -30 then "maintaining balance"
  else "building surplus"

/-- The sleep-debt enrichment pass: one Fact per entry of the first seven rows
carrying a sleep-debt field, plus one aggregate trend Fact. -/
def sleepDebtFacts (rows : List MetricRow) : List Fact :=
  let entries := (rows.filter hasSleepDebtField).take 7
  if entries.isEmpty then []
  else
    let perDay := sleepDebtFactsAux 0 entries
    let totalDebt := (entries.map sleepDebtMinutes).sum
    let avgDailyDebt := totalDebt / entries.length
    perDay ++
      [{ content := "Sleep debt 7-day trend: " ++ toFixed1 (totalDebt / 60) ++
           " hours total, " ++ toFixed1 (avgDailyDebt / 60) ++
           " hours average daily (" ++ debtTrendStatus avgDailyDebt ++ ")"
         date := none
         metric := "Sleep Debt Trend"
         value := ratToString totalDebt
         source := "sleep_debt_analysis"
         recency := some 0 }]

/-- Embedding of `RAGService.buildKnowledgeBase`: CSV Facts, then current-snapshot Facts, then
the sleep-debt enrichment. -/
def buildKnowledgeBase (csvData : List MetricRow) (dynamicMetrics : List Snapshot) :
    List Fact :=
  csvFacts csvData ++ snapshotFacts dynamicMetrics ++ sleepDebtFacts csvData

/-! ### Relevance retriever (`RAGService.retrieveRelevantData`) -/

/-- First-occurrence deduplication, as `[...new Set(expandedWords)]` produces. -/
def dedupFirstAux : List String → List String → List String
  | _, [] => []
  | seen, w :: ws =>
      if seen.contains w then dedupFirstAux seen ws
      else w :: dedupFirstAux (w :: seen) ws

/-- First-occurrence deduplication of a word list. -/
def dedupFirst (l : List String) : List String := dedupFirstAux [] l

/-- The five fixed trigger/expansion clusters of `expandQuery`, in source order. -/
def expansionClusters : List (List String × List String) :=
  [ (["sleep", "sleeping", "slept", "rest", "bed"],
     ["sleep", "asleep", "duration", "efficiency", "performance", "rem", "deep",
      "light", "awake", "bed"]),
    (["debt", "owe", "deficit", "behind", "surplus", "excess"],
     ["debt", "deficit", "surplus", "need", "owe", "behind", "excess", "balance"]),
    (["recovery", "recover", "readiness", "ready"],
     ["recovery", "score", "hrv", "variability", "resting"]),
    (["strain", "workout", "exercise", "activity", "training"],
     ["strain", "day", "exertion", "calories", "burned", "energy"]),
    (["heart", "hr", "bpm", "pulse"],
     ["heart", "rate", "bpm", "resting", "average", "max", "hrv", "variability"]) ]

/-- Embedding of `expandQuery`: tokenize the lower-cased query and union in each triggered
cluster's expansion vocabulary, deduplicated. -/
def expandQuery (queryLower : String) : List String :=
  let words := jsSplitWs queryLower
  let expanded := expansionClusters.foldl
    (fun acc c => if words.any (fun w => c.1.contains w) then acc ++ c.2 else acc)
    words
  dedupFirst expanded

/-- The fixed temporal-reference phrase set. -/
def temporalReferences : List String :=
  ["last night", "yesterday", "today", "most recent", "latest", "current", "now"]

/-- Temporal-intent detection on the lower-cased query. -/
def isTemporalQuery (queryLower : String) : Bool :=
  temporalReferences.any (fun r => jsIncludes queryLower r)

/-- The per-term keyword score of one Fact: +2 substring of content, +3 substring
of metric, +1 whole word of content, +2 whole word of metric. -/
def termScore (content metric : String) (contentWords metricWords : List String)
    (w : String) : ℤ :=
  (if jsIncludes content w then 2 else 0) +
    (if jsIncludes metric w then 3 else 0) +
    (if contentWords.contains w then 1 else 0) +
    (if metricWords.contains w then 2 else 0)

/-- The recency bonuses: +3 below recency 3, and the temporal-intent boosts
+20/+10/+5 at recency 0/1/2. -/
def recencyBonus (temporal : Bool) (recency : Option ℤ) : ℤ :=
  (match recency with
   | some r => if r < 3 then 3 else 0
   | none => 0) +
  (match recency with
   | some r =>
       if temporal then
         (if r = 0 then 20 else if r = 1 then 10 else if r = 2 then 5 else 0)
       else 0
   | none => 0)

/-- The full relevance score of one Fact for one query (the body of the
`scoredData` map in `retrieveRelevantData`). -/
def factScore (queryLower : String) (temporal : Bool) (terms : List String)
    (f : Fact) : ℤ :=
  let content := jsToLower f.content
  let metric := jsToLower f.metric
  let contentWords := jsSplitWs content
  let metricWords := jsSplitWs metric
  (terms.map (termScore content metric contentWords metricWords)).sum +
    (if jsIncludes queryLower "sleep debt" && f.source == "sleep_debt_tracking"
     then 50 else 0) +
    (if jsIncludes queryLower "sleep debt" && f.source == "sleep_debt_analysis"
     then 45 else 0) +
    (if f.source == "current_metrics" then 5 else 0) +
    recencyBonus temporal f.recency

/-- The relevance score of a Fact, with query preprocessing applied. -/
def factScoreQ (query : String) (f : Fact) : ℤ :=
  let queryLower := jsToLower query
  factScore queryLower (isTemporalQuery queryLower) (expandQuery queryLower) f

/-- Stable descending insertion of a scored Fact (an element goes in front of the
first entry whose score is not larger, so earlier equal-score entries stay first —
the observable behaviour of the stable `sort((a, b) => b.score - a.score)`). -/
def insertDesc (p : Fact × ℤ) : List (Fact × ℤ) → List (Fact × ℤ)
  | [] => [p]
  | q :: qs => if q.2 ≤ p.2 then p :: q :: qs else q :: insertDesc p qs

/-- Stable sort of scored Facts by descending score. -/
def sortDesc : List (Fact × ℤ) → List (Fact × ℤ)
  | [] => []
  | p :: ps => insertDesc p (sortDesc ps)

/-- The scored, filtered, sorted ranking that `retrieveRelevantData` builds before
truncating to `maxResults`. -/
def rankedScored (query : String) (facts : List Fact) : List (Fact × ℤ) :=
  sortDesc ((facts.map (fun f => (f, factScoreQ query f))).filter (fun p => p.2 > 0))

/-- Embedding of `RAGService.retrieveRelevantData`: positive-scored facts, sorted by descending
score (stable), truncated to `maxResults`. -/
def retrieveRelevantData (query : String) (facts : List Fact) (maxResults : ℕ) :
    List Fact :=
  ((rankedScored query facts).take maxResults).map Prod.fst

/-! ### Predictive analytics (`PredictiveAnalytics`) -/

/-- One forecast record (`PredictionResult` in the source). -/
structure PredictionResult where
  type : String
  prediction : ℤ
  confidence : ℚ
  timeframe : String
  reasoning : String
  recommendations : List String
deriving DecidableEq

/-- Embedding of `PredictiveAnalytics.calculateTrend`: least-squares slope over index/value
pairs, zero below three points.  (For three or more points the denominator
`n·Σx² − (Σx)²` is positive, so the division is exact.) -/
def calculateTrend (data : List ℚ) : ℚ :=
  if data.length < 3 then 0
  else
    let n : ℚ := data.length
    let xs := (List.range data.length).map (fun i => (i : ℚ))
    let sumX := xs.sum
    let sumY := data.sum
    let sumXY := (List.zipWith (fun x y => x * y) xs data).sum
    let sumXX := (xs.map (fun x => x * x)).sum
    (n * sumXY - sumX * sumY) / (n * sumXX - sumX * sumX)

/-- Embedding of `PredictiveAnalytics.calculateVariance`: population variance (mean of squared
deviations).  On an empty list the JS code would produce `NaN`; every call site
guards the length, and the rational model returns 0 there. -/
def calculateVariance (data : List ℚ) : ℚ :=
  let mean := data.sum / data.length
  (data.map (fun val => (val - mean) ^ 2)).sum / data.length

/-- The variance test inside `calculateConfidence`: `cv > 0.3` for
`cv = variance / mean` over the 7-point window.  The `mean = 0` case is spelled
out to match JavaScript (`variance/0` is `Infinity > 0.3` when the variance is
positive, `NaN > 0.3`, i.e. false, when it is zero). -/
def cvExceeds (data : List ℚ) : Bool :=
  let window := data.take 7
  let variance := calculateVariance window
  let mean := window.sum / window.length
  if mean = 0 then variance > 0 else variance / mean > 3/10

/-- Embedding of `PredictiveAnalytics.calculateConfidence`: data-volume base capped at 0.9,
an 0.8 factor per high-variance series with more than three points, clamped to
[0.5, 0.95]. -/
def calculateConfidence (datasets : List (List ℚ)) : ℚ :=
  let totalDataPoints := (datasets.map List.length).sum
  let avgDataPoints : ℚ := (totalDataPoints : ℚ) / (datasets.length : ℚ)
  let base := min (9/10) (avgDataPoints / 14)
  let adjusted := datasets.foldl
    (fun confidence data =>
      if data.length > 3 && cvExceeds data then confidence * (8/10) else confidence)
    base
  max (1/2) (min (19/20) adjusted)

/-- Embedding of `predictRecoveryScore`. -/
def predictRecoveryScore (d : List MetricRow) : PredictionResult :=
  let recoveryData := getMetricData d "recovery score %"
  let strainData := getMetricData d "day strain"
  let sleepData := getMetricData d "sleep performance %"
  if recoveryData.length < 7 then
    { type := "recovery", prediction := 0, confidence := 0, timeframe := "tomorrow"
      reasoning := "Insufficient data", recommendations := [] }
  else
    let recentRecovery := (recoveryData.take 3).sum / 3
    let weeklyAvg := (recoveryData.take 7).sum / 7
    let recentStrain := if strainData.length > 0 then (strainData.take 2).sum / 2 else 10
    let recentSleep := if sleepData.length > 0 then (sleepData.take 2).sum / 2 else 80
    let predicted0 := weeklyAvg
    let predicted1 := predicted0 +
      (if recentStrain > 15 then -10 else if recentStrain > 12 then -5
       else if recentStrain < 8 then 3 else 0)
    let predicted2 := predicted1 +
      (if recentSleep < 70 then -8 else if recentSleep > 85 then 5 else 0)
    let predicted3 := predicted2 + (recentRecovery - weeklyAvg) * (3/10)
    let predicted := max 10 (min 100 predicted3)
    let confidence := calculateConfidence [recoveryData, strainData, sleepData]
    let recommendations :=
      if predicted < 50 then
        ["Consider a rest day or light activity",
         "Prioritize quality sleep tonight",
         "Focus on hydration and nutrition"]
      else if predicted > 80 then
        ["Good day for higher intensity training",
         "Your body is ready for challenge",
         "Maintain current recovery practices"]
      else
        ["Moderate training intensity recommended",
         "Monitor how you feel during activity",
         "Focus on recovery practices"]
    { type := "recovery"
      prediction := jsRound predicted
      confidence := confidence
      timeframe := "tomorrow"
      reasoning := "Based on your recent recovery trend (" ++ toFixed1 recentRecovery ++
        "%), strain patterns (" ++ toFixed1 recentStrain ++ "), and sleep quality (" ++
        toFixed1 recentSleep ++ "%)"
      recommendations := recommendations }

/-- The `weeklyDeficits` loop of `predictSleepDebt`: daily `need − duration`
deficits over up to the seven most recent aligned days. -/
def weeklyDeficits (sleepNeedData sleepDurationData : List ℚ) : List ℚ :=
  List.zipWith (fun need dur => need - dur)
    (sleepNeedData.take 7) (sleepDurationData.take 7)

/-- Embedding of `sleepDebtData.length > 0 ? sleepDebtData[0] : 0`. -/
def currentDebtOf (sleepDebtData : List ℚ) : ℚ :=
  match sleepDebtData with
  | [] => 0
  | x :: _ => x

/-- The `actualCurrentDebt` computation of `predictSleepDebt`: the explicit most
recent debt value, except that a value of exactly 0 (or no value) falls back to the
sum of the weekly deficits when any exist. -/
def actualCurrentDebt (sleepNeedData sleepDurationData sleepDebtData : List ℚ) : ℚ :=
  let currentDebt := currentDebtOf sleepDebtData
  if currentDebt = 0 ∧ (weeklyDeficits sleepNeedData sleepDurationData).length > 0 then
    (weeklyDeficits sleepNeedData sleepDurationData).sum
  else currentDebt

/-- Embedding of `predictSleepDebt`. -/
def predictSleepDebt (d : List MetricRow) : PredictionResult :=
  let sleepNeedData := getMetricData d "sleep need (min)"
  let sleepDurationData := getMetricData d "asleep duration (min)"
  let sleepDebtData := getMetricData d "sleep debt (min)"
  if sleepNeedData.length < 5 ∨ sleepDurationData.length < 5 then
    { type := "sleep_debt", prediction := 0, confidence := 0, timeframe := "current"
      reasoning := "Insufficient sleep data", recommendations := [] }
  else
    let deficits := weeklyDeficits sleepNeedData sleepDurationData
    let debt := actualCurrentDebt sleepNeedData sleepDurationData sleepDebtData
    let recentDeficit := (deficits.take 3).sum / 3
    let projectedDebtInWeek := debt + recentDeficit * 7
    let confidence := calculateConfidence [sleepNeedData, sleepDurationData]
    let currentDebtHours := debt / 60
    let projectedDebtHours := projectedDebtInWeek / 60
    let recommendations :=
      if |debt| < 30 then
        ["Excellent sleep balance! 🎯",
         "You\x27re meeting your sleep needs consistently",
         "Maintain your current sleep schedule",
         "Continue prioritizing sleep quality"]
      else if debt > 120 then
        ["Significant sleep debt accumulated ⚠️",
         "Prioritize earlier bedtime this week",
         "Consider catching up with longer weekend sleep",
         "Focus on sleep quality optimization"]
      else if debt > 60 then
        ["Moderate sleep debt building up 📈",
         "Aim for 30-60 minutes earlier bedtime",
         "Maintain consistent sleep schedule",
         "Monitor sleep efficiency"]
      else if debt < -60 then
        ["Great sleep surplus! 💪",
         "You\x27re banking extra recovery time",
         "Maintain current excellent habits",
         "Consider how this affects your energy levels"]
      else
        ["Minor sleep debt - manageable 👍",
         "Small adjustments to bedtime can help",
         "Focus on sleep consistency",
         "Monitor for quality over quantity"]
    { type := "sleep_debt"
      prediction := jsRound projectedDebtInWeek
      confidence := confidence
      timeframe := "current & 1 week projection"
      reasoning := "Current debt: " ++ (if currentDebtHours ≥ 0 then "+" else "") ++
        toFixed1 currentDebtHours ++ "h. Recent avg deficit: " ++
        toFixed1 (recentDeficit / 60) ++ "h/day. Projected: " ++
        (if projectedDebtHours ≥ 0 then "+" else "") ++ toFixed1 projectedDebtHours ++ "h"
      recommendations := recommendations }

/-- Embedding of `predictPerformanceReadiness`. -/
def predictPerformanceReadiness (d : List MetricRow) : PredictionResult :=
  let recoveryData := getMetricData d "recovery score %"
  let hrvData := getMetricData d "heart rate variability (ms)"
  let strainData := getMetricData d "day strain"
  if recoveryData.length < 5 then
    { type := "performance", prediction := 0, confidence := 0
      timeframe := "next 3 days", reasoning := "Insufficient performance data"
      recommendations := [] }
  else
    let avgRecovery := (recoveryData.take 5).sum / 5
    let hrvTrend := if hrvData.length ≥ 5 then calculateTrend (hrvData.take 5) else 0
    let recentStrain := (strainData.take 3).sum / 3
    let readiness0 := avgRecovery
    let readiness1 := readiness0 +
      (if hrvTrend > 1/10 then 5 else if hrvTrend < -(1/10) then -5 else 0)
    let readiness2 := readiness1 +
      (if recentStrain > 16 then -10 else if recentStrain < 9 then 5 else 0)
    let readiness := max 0 (min 100 readiness2)
    let confidence := calculateConfidence [recoveryData, hrvData, strainData]
    let recommendations :=
      if readiness > 80 then
        ["Excellent performance window",
         "Consider peak intensity training",
         "Your body is primed for performance"]
      else if readiness > 60 then
        ["Good for moderate-high intensity",
         "Listen to your body during training",
         "Maintain current recovery practices"]
      else
        ["Focus on active recovery",
         "Avoid high intensity training",
         "Prioritize sleep and nutrition"]
    { type := "performance"
      prediction := jsRound readiness
      confidence := confidence
      timeframe := "next 3 days"
      reasoning := "Recovery trend: " ++ toFixed1 avgRecovery ++ "%, HRV trend: " ++
        (if hrvTrend > 0 then "improving" else "stable") ++ ", Recent strain: " ++
        toFixed1 recentStrain
      recommendations := recommendations }

/-- The high-strain/low-recovery test of the injury-risk loop
(`strainData[i] > 14 && recoveryData[i] < 50`; the pair is (strain, recovery)). -/
def riskDay (p : ℚ × ℚ) : Bool := p.1 > 14 && p.2 < 50

/-- One iteration of the injury-risk loop on the state
(consecutive-day counter, running risk score). -/
def riskStep (st : ℤ × ℤ) (p : ℚ × ℚ) : ℤ × ℤ :=
  if riskDay p then (st.1 + 1, st.2 + 15) else (0, st.2)

/-- The aligned (strain, recovery) pairs the injury-risk loop scans: up to the
seven most recent days present in both series. -/
def injuryPairs (recoveryData strainData : List ℚ) : List (ℚ × ℚ) :=
  List.zip (strainData.take 7) (recoveryData.take 7)

/-- The injury-risk loop: final (consecutive-day counter, accumulated score). -/
def injuryScan (recoveryData strainData : List ℚ) : ℤ × ℤ :=
  (injuryPairs recoveryData strainData).foldl riskStep (0, 0)

/-- The HRV slope used by the injury-risk assessment. -/
def injuryHrvTrend (hrvData : List ℚ) : ℚ :=
  if hrvData.length ≥ 7 then calculateTrend (hrvData.take 7) else 0

/-- The strain-spike bonus: +15 when the recent 3-day strain mean exceeds the
7-day mean by more than 30%. -/
def strainSpikeBonus (strainData : List ℚ) : ℤ :=
  let recentStrainAvg := (strainData.take 3).sum / 3
  let weeklyStrainAvg := (strainData.take 7).sum / 7
  if recentStrainAvg > weeklyStrainAvg * (13/10) then 15 else 0

/-- The full injury-risk score: loop score, +25 when the final consecutive-day
counter is at least 3, +20 on a declining HRV slope, the strain-spike bonus,
capped at 100. -/
def injuryRiskScore (recoveryData strainData hrvData : List ℚ) : ℤ :=
  let scan := injuryScan recoveryData strainData
  let risk0 := scan.2 + (if scan.1 ≥ 3 then 25 else 0)
  let risk1 := risk0 + (if injuryHrvTrend hrvData < -(3/20) then 20 else 0)
  let risk2 := risk1 + strainSpikeBonus strainData
  min 100 risk2

/-- Embedding of `assessInjuryRisk`. -/
def assessInjuryRisk (d : List MetricRow) : PredictionResult :=
  let recoveryData := getMetricData d "recovery score %"
  let strainData := getMetricData d "day strain"
  let hrvData := getMetricData d "heart rate variability (ms)"
  if recoveryData.length < 7 ∨ strainData.length < 7 then
    { type := "injury_risk", prediction := 0, confidence := 0
      timeframe := "next 2 weeks"
      reasoning := "Insufficient data for injury risk assessment"
      recommendations := [] }
  else
    let riskScore := injuryRiskScore recoveryData strainData hrvData
    let consecutiveRiskDays := (injuryScan recoveryData strainData).1
    let hrvTrend := injuryHrvTrend hrvData
    let confidence := calculateConfidence [recoveryData, strainData, hrvData]
    let recommendations :=
      if riskScore > 70 then
        ["HIGH INJURY RISK - Consider rest days",
         "Focus heavily on recovery protocols",
         "Avoid high-intensity training",
         "Consider consulting a healthcare provider"]
      else if riskScore > 40 then
        ["Moderate injury risk detected",
         "Increase recovery focus",
         "Reduce training intensity temporarily",
         "Monitor for pain or unusual fatigue"]
      else
        ["Low injury risk",
         "Current training load appears sustainable",
         "Continue monitoring strain-recovery balance"]
    { type := "injury_risk"
      prediction := riskScore
      confidence := confidence
      timeframe := "next 2 weeks"
      reasoning := toString consecutiveRiskDays ++
        " consecutive high-risk days, HRV trend: " ++
        (if hrvTrend < 0 then "declining" else "stable") ++
        ", strain pattern analysis"
      recommendations := recommendations }

/-- Embedding of `PredictiveAnalytics.generatePredictions` (with the constructor's 30-day
window applied): the four forecasts, filtered to confidence strictly above 0.6. -/
def generatePredictions (data : List MetricRow) : List PredictionResult :=
  let d := data.take 30
  ([predictRecoveryScore d, predictSleepDebt d,
    predictPerformanceReadiness d, assessInjuryRisk d]).filter
    (fun p => p.confidence > 3/5)

/-! ### Goal progress (`GoalSetting.updateGoalProgress`)

The progress expression `Math.max(0, Math.min(100, ratio * 100))` can meet a
division by zero, so here the JavaScript number space is modelled explicitly:
`JsNum` is a finite rational, an infinity, or `NaN`, and the arithmetic on it
follows the IEEE-754 rules JavaScript applies (`x/0` is a signed infinity for
`x ≠ 0` and `NaN` for `x = 0`; `Math.min`/`Math.max` propagate `NaN`). -/

inductive JsNum where
  | num : ℚ → JsNum
  | posInf : JsNum
  | negInf : JsNum
  | nan : JsNum
deriving DecidableEq

/-- Division of finite operands in JavaScript. -/
def jsDivNum (a b : ℚ) : JsNum :=
  if b ≠ 0 then .num (a / b)
  else if a > 0 then .posInf
  else if a < 0 then .negInf
  else .nan

/-- Multiplication by the positive literal 100 (sign-preserving on infinities). -/
def jsMul100 : JsNum → JsNum
  | .num q => .num (q * 100)
  | .posInf => .posInf
  | .negInf => .negInf
  | .nan => .nan

/-- Model of `Math.min(100, x)`. -/
def jsMin100 : JsNum → JsNum
  | .num q => .num (min 100 q)
  | .posInf => .num 100
  | .negInf => .negInf
  | .nan => .nan

/-- Model of `Math.max(0, x)`. -/
def jsMax0 : JsNum → JsNum
  | .num q => .num (max 0 q)
  | .posInf => .posInf
  | .negInf => .num 0
  | .nan => .nan

/-- The goal kinds of `GoalSetting`. -/
inductive GoalType where
  | recovery | sleep | strain | hrv | custom
deriving DecidableEq

/-- Embedding of `GoalSetting.getBaselineValue`: the fixed per-kind baseline. -/
def getBaselineValue : GoalType → ℚ
  | .recovery => 30
  | .sleep => 60
  | .strain => 20
  | .hrv => 20
  | .custom => 0

/-- The progress computation of `GoalSetting.updateGoalProgress`: the
lower-is-better formula for strain goals (the one kind the code treats as
lower-is-better, with its baseline fixed at 20), the `current/target` formula
otherwise, clamped by `Math.max(0, Math.min(100, ·))`. -/
def updateGoalProgress (t : GoalType) (targetValue currentValue : ℚ) : JsNum :=
  if t = .strain then
    jsMax0 (jsMin100 (jsMul100
      (jsDivNum (targetValue - currentValue) (targetValue - getBaselineValue t))))
  else
    jsMax0 (jsMin100 (jsMul100 (jsDivNum currentValue targetValue)))

/-! ### Definitions following the claim wording (for refinement comparisons)

These two definitions are written from the claim text, not from the source, and
exist only to be compared against the source-derived definitions above. -/

/-- Modelled from the claim wording for the confidence helper: the 0.8 penalty
fires when the coefficient of variation, standard deviation divided by mean, of
the 7-point window exceeds 0.3 — stated square-free as
`mean > 0 ∧ variance > (0.3 · mean)²`. -/
def cvExceedsClaim (data : List ℚ) : Bool :=
  let window := data.take 7
  let variance := calculateVariance window
  let mean := window.sum / window.length
  0 < mean ∧ variance > (3/10 * mean) ^ 2

/-- Modelled from the claim wording: `calculateConfidence` with the
standard-deviation-based coefficient of variation. -/
def calculateConfidenceClaim (datasets : List (List ℚ)) : ℚ :=
  let totalDataPoints := (datasets.map List.length).sum
  let avgDataPoints : ℚ := (totalDataPoints : ℚ) / (datasets.length : ℚ)
  let base := min (9/10) (avgDataPoints / 14)
  let adjusted := datasets.foldl
    (fun confidence data =>
      if data.length > 3 && cvExceedsClaim data then confidence * (8/10) else confidence)
    base
  max (1/2) (min (19/20) adjusted)

/-- One iteration of the injury-risk loop as the claim words it, tracking in
addition whether the consecutive-day counter ever reached 3. -/
def riskStepClaim (st : ℤ × ℤ × Bool) (p : ℚ × ℚ) : ℤ × ℤ × Bool :=
  if riskDay p then (st.1 + 1, st.2.1 + 15, st.2.2 || (st.1 + 1 ≥ 3))
  else (0, st.2.1, st.2.2)

/-- Modelled from the claim wording for the injury-risk score: the one-time +25
is added if the consecutive-day counter reached 3 at ANY point during the scan. -/
def injuryRiskScoreClaim (recoveryData strainData hrvData : List ℚ) : ℤ :=
  let scan := (injuryPairs recoveryData strainData).foldl riskStepClaim (0, 0, false)
  let risk0 := scan.2.1 + (if scan.2.2 then 25 else 0)
  let risk1 := risk0 + (if injuryHrvTrend hrvData < -(3/20) then 20 else 0)
  let risk2 := risk1 + strainSpikeBonus strainData
  min 100 risk2

/-! ### Concrete instances used by the claim theorems -/

/-- The eighth-most-recent row of the C4 counterexample: it carries a date. -/
def datedOldRow : MetricRow :=
  [("date", Value.str "2024-01-01"), ("recovery score %", Value.num 55)]

/-- The row table of the C4 counterexample: seven recent rows, then a dated one. -/
def datedRows : List MetricRow :=
  [[("recovery score %", Value.num 60)], [("recovery score %", Value.num 61)],
   [("recovery score %", Value.num 62)], [("recovery score %", Value.num 63)],
   [("recovery score %", Value.num 64)], [("recovery score %", Value.num 65)],
   [("recovery score %", Value.num 66)], datedOldRow]

/-- The series exhibiting C5's divergence: fourteen samples whose 7-point window
has variance/mean above 0.3 but standard deviation/mean well below 0.3. -/
def confVarSeries : List ℚ := [10, 10, 10, 16, 10, 10, 10, 10, 10, 10, 10, 10, 10, 10]

/-- The length of the trailing all-risk run of the scanned day list (the value
of the consecutive-day counter when the injury-risk loop ends). -/
def trailingRiskRun (l : List (ℚ × ℚ)) : ℕ := (l.reverse.takeWhile riskDay).length

/-- Recovery series of the C6 counterexample: three low-recovery days followed by
four healthy ones. -/
def riskRec : List ℚ := [40, 40, 40, 60, 60, 60, 60]

/-- Strain series of the C6 counterexample: three high-strain days followed by
four moderate ones. -/
def riskStr : List ℚ := [15, 15, 15, 10, 10, 10, 10]

/-- One row of the C8 witness data: constant recovery 60, strain 10, sleep 80. -/
def steadyRow : MetricRow :=
  [("recovery score %", Value.num 60), ("day strain", Value.num 10),
   ("sleep performance %", Value.num 80)]

/-- Nine days of `steadyRow`: enough recovery data for the recovery forecast, and
enough volume (average sample count 9, 9/14 > 0.6) to clear the filter. -/
def steadyRows : List MetricRow :=
  [steadyRow, steadyRow, steadyRow, steadyRow, steadyRow, steadyRow, steadyRow,
   steadyRow, steadyRow]

/-- Fact `t` is ranked strictly above `o` by the retriever for `query` over `facts`:
in the scored, filtered, descending ranking every position holding `t` precedes
every position holding `o`. -/
def ranksAbove (query : String) (facts : List Fact) (t o : Fact) : Prop :=
  ∀ (i j : ℕ) (hi : i < (rankedScored query facts).length)
    (hj : j < (rankedScored query facts).length),
    ((rankedScored query facts).get ⟨i, hi⟩).1 = t →
    ((rankedScored query facts).get ⟨j, hj⟩).1 = o → i < j

/-- The adversarial CSV column name of the C7 counterexample: one field name
matching nine expanded query terms. -/
def craftedKey : String :=
  "sleep debt deficit surplus need asleep duration efficiency performance"

/-- The single CSV row of the C7 counterexample. -/
def craftedRow : MetricRow :=
  [(craftedKey, Value.num 5), ("sleep debt (min)", Value.num 60)]

/-- The row table of the C7 counterexample. -/
def craftedRows : List MetricRow := [craftedRow]

/-- The Fact the crafted column produces (score 72 + 3 = 75 for "sleep debt"). -/
def craftedFact : Fact :=
  { content := "most recently, your sleep debt deficit surplus need asleep duration efficiency performance was 0h 5m"
    date := some "day 1"
    metric := craftedKey
    value := "0h 5m"
    source := "csv_data"
    recency := some 0 }

/-- The Fact of the ordinary sleep-debt column (score 16 + 3 = 19). -/
def debtMinFact : Fact :=
  { content := "most recently, your sleep debt (min) was 1h 0m"
    date := some "day 1"
    metric := "sleep debt (min)"
    value := "1h 0m"
    source := "csv_data"
    recency := some 0 }

/-- The per-day sleep-debt tracking Fact (score 16 + 50 + 3 = 69). -/
def trackingFact : Fact :=
  { content := "Sleep debt most recent night: +1.0 hours (moderate debt)"
    date := none
    metric := "Sleep Debt Analysis"
    value := "60"
    source := "sleep_debt_tracking"
    recency := some 0 }

/-- The aggregate sleep-debt trend Fact (score 16 + 45 + 3 = 64). -/
def analysisFact : Fact :=
  { content := "Sleep debt 7-day trend: 1.0 hours total, 1.0 hours average daily (accumulating debt)"
    date := none
    metric := "Sleep Debt Trend"
    value := "60"
    source := "sleep_debt_analysis"
    recency := some 0 }

/-! ## Claims -/

/-- C1: the worked example of the lower-is-better progress formula.  The claim
states progress 100 at `current = 10`, 0 at `current = 20`, 50 at `current = 15`
for a strain (lower-is-better) goal with baseline 20 and target 10; the code's
formula `((target − current)/(target − baseline)) · 100` instead yields 0 at the
target value and 100 at the baseline value (and 50 at 15), inverting the first
two: a progress tracker that reports 0% on reaching the target.  This theorem
evaluates the code at the claim's three inputs. -/
theorem updateGoalProgress_strain_worked_example :
    updateGoalProgress .strain 10 10 = .num 0 ∧
    updateGoalProgress .strain 10 20 = .num 100 ∧
    updateGoalProgress .strain 10 15 = .num 50 := by
  refine ⟨?_, ?_, ?_⟩ <;>
    norm_num [updateGoalProgress, getBaselineValue, jsDivNum, jsMul100, jsMin100,
      jsMax0]

/-- C2: the claimed [0, 100] invariant of `updateGoalProgress` fails: for a
strain goal with `targetValue = 20` (equal to the fixed strain baseline 20) and
`currentValue = 20`, the code divides 0 by 0 and `Math.max(0, Math.min(100, NaN))`
propagates the `NaN` into `goal.progress` — there is no division guard. -/
theorem updateGoalProgress_nan_at_target_eq_baseline :
    updateGoalProgress .strain 20 20 = .nan := by
  norm_num [updateGoalProgress, getBaselineValue, jsDivNum, jsMul100, jsMin100,
    jsMax0]

/-- C9: a knowledge-base Fact is produced from a row field exactly when the key
is not the provenance tag and the value is truthy with a non-blank string
rendering; in particular a numeric 0, an empty string, and a missing value
produce no Fact. -/
theorem fieldFact_truthy_iff (idx : ℕ) (row : MetricRow) (k : String) (v : Value) :
    ((fieldFact idx row k v).isSome = true ↔
      (k ≠ "_source_file" ∧ truthyVal v = true ∧ jsTrim (valToString v) ≠ "")) ∧
    fieldFact idx row k (Value.num 0) = none ∧
    fieldFact idx row k (Value.str "") = none ∧
    fieldFact idx row k Value.null = none := by
  refine ⟨?_, ?_, ?_, ?_⟩
  · rw [fieldFact]
    split_ifs with h1 h2
    · simp [h1]
    · simp only [Option.isSome_some, true_iff]
      rw [Bool.and_eq_true, decide_eq_true_iff] at h2
      exact ⟨h1, h2.1, h2.2⟩
    · simp only [Option.isSome_none, Bool.false_eq_true, false_iff]
      rintro ⟨ha, hb, hc⟩
      exact h2 (by rw [Bool.and_eq_true, decide_eq_true_iff]; exact ⟨hb, hc⟩)
  · rw [fieldFact]
    have : truthyVal (Value.num 0) = false := by simp [truthyVal]
    simp [this]
  · rw [fieldFact]
    have : truthyVal (Value.str "") = false := by simp [truthyVal]
    simp [this]
  · rw [fieldFact]
    have : truthyVal Value.null = false := by simp [truthyVal]
    simp [this]

/-- C10: in the sleep-debt forecast, an explicit most-recent sleep-debt value of
exactly 0 is treated as if no debt were recorded: the current debt is recomputed
as the sum of the (need − duration) deficits over up to the 7 most recent days. -/
theorem actualCurrentDebt_zero_recomputed (need dur debt : List ℚ)
    (h0 : debt.head? = some 0) (h1 : 0 < (weeklyDeficits need dur).length) :
    actualCurrentDebt need dur debt = (weeklyDeficits need dur).sum := by
  have hc : currentDebtOf debt = 0 := by
    cases debt with
    | nil => simp at h0
    | cons x xs =>
        simp only [List.head?_cons, Option.some.injEq] at h0
        simp [currentDebtOf, h0]
  rw [actualCurrentDebt]
  simp [hc, h1]

/-- Witness for C10 at a concrete input: seven 480-minute need rows against
450-minute durations and an explicit most-recent debt of 0. -/
theorem actualCurrentDebt_zero_recomputed_witness :
    ([(0 : ℚ), 30].head? = some 0) ∧
    0 < (weeklyDeficits [(480 : ℚ), 480, 480, 480, 480, 480, 480]
      [(450 : ℚ), 450, 450, 450, 450, 450, 450]).length ∧
    actualCurrentDebt [(480 : ℚ), 480, 480, 480, 480, 480, 480]
      [(450 : ℚ), 450, 450, 450, 450, 450, 450] [(0 : ℚ), 30] =
      (weeklyDeficits [(480 : ℚ), 480, 480, 480, 480, 480, 480]
        [(450 : ℚ), 450, 450, 450, 450, 450, 450]).sum := by
  refine ⟨by norm_num, by norm_num [weeklyDeficits], ?_⟩
  exact actualCurrentDebt_zero_recomputed _ _ _ (by norm_num)
    (by norm_num [weeklyDeficits])

/-- For a nonnegative minutes count the JavaScript remainder by 60 lies in
[0, 60). -/
lemma jsMod_sixty_bounds (m : ℚ) (hm : 0 ≤ m) :
    0 ≤ jsMod m 60 ∧ jsMod m 60 < 60 := by
  have hq : 0 ≤ m / 60 := by positivity
  have ht : ratTrunc (m / 60) = ⌊m / 60⌋ := by simp [ratTrunc, hq]
  have hfl : ((⌊m / 60⌋ : ℚ)) ≤ m / 60 := Int.floor_le _
  have hfu : m / 60 < (⌊m / 60⌋ : ℚ) + 1 := Int.lt_floor_add_one _
  have hid : 60 * (m / 60) = m := by ring
  constructor
  · rw [jsMod, ht]; nlinarith
  · rw [jsMod, ht]; nlinarith

/-- C3 (amended): for every duration-like field holding a nonnegative minutes
value `m`, the rendered value is `"{H}h {M}m"` with `H = ⌊m/60⌋` and
`M = round(m mod 60)` an integer in [0, 60] — the upper bound is 60, not 59,
because `Math.round` carries a fractional remainder of at least 59.5 up to 60. -/
theorem duration_value_rendering (k : String) (m : ℚ)
    (hk : isDurationKey k = true) (hm : 0 ≤ m) :
    renderFieldValue k (Value.num m) =
      toString (durHours m) ++ "h " ++ toString (durMins m) ++ "m" ∧
    durHours m = ⌊m / 60⌋ ∧ 0 ≤ durMins m ∧ durMins m ≤ 60 := by
  obtain ⟨hlo, hhi⟩ := jsMod_sixty_bounds m hm
  refine ⟨?_, rfl, ?_, ?_⟩
  · simp [renderFieldValue, hk, parseFloatVal, formatDuration]
  · exact Int.floor_nonneg.mpr (by linarith)
  · have : jsMod m 60 + 1/2 < (61 : ℚ) := by linarith
    have h61 : jsRound (jsMod m 60) < 61 := Int.floor_lt.mpr (by exact_mod_cast this)
    exact Int.lt_add_one_iff.mp h61

/-- Witness for C3's amended statement at the concrete input m = 59.5 minutes. -/
theorem duration_value_rendering_witness :
    isDurationKey "asleep duration (min)" = true ∧ (0 : ℚ) ≤ 119/2 ∧
    (renderFieldValue "asleep duration (min)" (Value.num (119/2)) =
        toString (durHours (119/2)) ++ "h " ++ toString (durMins (119/2)) ++ "m" ∧
      durHours ((119 : ℚ)/2) = ⌊(119 : ℚ)/2 / 60⌋ ∧
      0 ≤ durMins ((119 : ℚ)/2) ∧ durMins ((119 : ℚ)/2) ≤ 60) :=
  ⟨by decide, by norm_num,
    duration_value_rendering "asleep duration (min)" (119/2) (by decide) (by norm_num)⟩

/-- C3 counterexample: the claim's bound `M ≤ 59` fails on the code.  A duration
field of 59.5 minutes produces the Fact value `"0h 60m"`: `Math.floor(59.5/60)`
is 0 and `Math.round(59.5 % 60)` is 60. -/
theorem duration_value_sixty_minutes :
    fieldFact 0 [] "asleep duration (min)" (Value.num (119/2)) =
      some { content := "most recently, your asleep duration (min) was 0h 60m"
             date := some "day 1"
             metric := "asleep duration (min)"
             value := "0h 60m"
             source := "csv_data"
             recency := some 0 } ∧
    durMins ((119 : ℚ)/2) = 60 ∧ ¬ durMins ((119 : ℚ)/2) ≤ 59 := by
  have hmins : durMins ((119 : ℚ)/2) = 60 := by
    have ht : ratTrunc ((119 : ℚ)/2 / 60) = 0 := by
      rw [ratTrunc, if_pos (by norm_num)]
      norm_num
    rw [durMins, jsMod, ht]
    norm_num [jsRound]
  have hhours : durHours ((119 : ℚ)/2) = 0 := by rw [durHours]; norm_num
  have hfd : formatDuration ((119 : ℚ)/2) = "0h 60m" := by
    rw [formatDuration, hmins, hhours]; rfl
  refine ⟨?_, hmins, by rw [hmins]; norm_num⟩
  rw [fieldFact, if_neg (by decide)]
  have htr : (truthyVal (Value.num (119/2)) &&
      decide (jsTrim (valToString (Value.num (119/2))) ≠ "")) = true := by
    have hv : valToString (Value.num (119/2)) = "119/2" := by
      have hden : ((119 : ℚ)/2).den = 2 := by norm_num
      have hnum : ((119 : ℚ)/2).num = 119 := by norm_num
      simp only [valToString, ratToString, hden, hnum]
      decide
    rw [Bool.and_eq_true, decide_eq_true_iff]
    constructor
    · simp only [truthyVal]
      norm_num
    · rw [hv]; decide
  rw [if_pos htr]
  have hrv : renderFieldValue "asleep duration (min)" (Value.num (119/2)) = "0h 60m" := by
    rw [renderFieldValue]
    simp only [parseFloatVal]
    rw [if_pos (by decide)]
    exact hfd
  simp only [hrv]
  rfl

/-- For row indices below 7 the recency phrase is one of the three relative
phrases. -/
lemma timeContext_cases (idx : ℕ) (h : idx < 7) :
    timeContext idx ∈ ["most recently", "recently", "in recent days"] ∧
      timeContext idx ≠ "" := by
  interval_cases idx <;> exact ⟨by decide, by decide⟩

/-- C4 (amended): every Fact built from a CSV row at index below 7 has content
of the shape `"{relative phrase}, your {field} was {value}"`, with the phrase
drawn from the fixed relative set — the row's date label enters such content only
through the field key/value themselves (e.g. the row's own `date` column).  Rows
at index 7 or beyond fall back to an `"On {date label}, ..."` content that embeds
the row's literal date when one is present (see the counterexample). -/
theorem csv_fact_relative_content (idx : ℕ) (row : MetricRow) (k : String)
    (v : Value) (fact : Fact) (hidx : idx < 7)
    (hsome : fieldFact idx row k v = some fact) :
    ∃ phrase, phrase ∈ ["most recently", "recently", "in recent days"] ∧
      fact.content = phrase ++ ", your " ++ k ++ " was " ++ renderFieldValue k v := by
  obtain ⟨hmem, hne⟩ := timeContext_cases idx hidx
  rw [fieldFact] at hsome
  split_ifs at hsome with h1 h2
  refine ⟨timeContext idx, hmem, ?_⟩
  injection hsome with hf
  rw [← hf]
  rw [if_neg hne]

/-- Witness for C4's amended statement: the most recent row's recovery field. -/
theorem csv_fact_relative_content_witness :
    (0 : ℕ) < 7 ∧
    fieldFact 0 [("recovery score %", Value.num 60)] "recovery score %"
        (Value.num 60) =
      some { content := "most recently, your recovery score % was 60"
             date := some "day 1"
             metric := "recovery score %"
             value := "60"
             source := "csv_data"
             recency := some 0 } ∧
    (∃ phrase, phrase ∈ ["most recently", "recently", "in recent days"] ∧
      (Fact.mk "most recently, your recovery score % was 60" (some "day 1")
          "recovery score %" "60" "csv_data" (some 0)).content =
        phrase ++ ", your " ++ "recovery score %" ++ " was " ++
          renderFieldValue "recovery score %" (Value.num 60)) := by
  have hv : valToString (Value.num 60) = "60" := by
    have hden : ((60 : ℚ)).den = 1 := by norm_num
    have hnum : ((60 : ℚ)).num = 60 := by norm_num
    simp only [valToString, ratToString, hden, hnum, if_pos]
    decide
  have hrv : renderFieldValue "recovery score %" (Value.num 60) = "60" := by
    rw [renderFieldValue, if_neg (by decide)]
    exact hv
  have hsome : fieldFact 0 [("recovery score %", Value.num 60)] "recovery score %"
      (Value.num 60) =
      some { content := "most recently, your recovery score % was 60"
             date := some "day 1"
             metric := "recovery score %"
             value := "60"
             source := "csv_data"
             recency := some 0 } := by
    rw [fieldFact, if_neg (by decide)]
    have htr : (truthyVal (Value.num 60) &&
        decide (jsTrim (valToString (Value.num 60)) ≠ "")) = true := by
      rw [Bool.and_eq_true, decide_eq_true_iff]
      refine ⟨?_, by rw [hv]; decide⟩
      simp only [truthyVal]
      norm_num
    rw [if_pos htr]
    simp only [hrv]
    rfl
  exact ⟨by norm_num, hsome,
    csv_fact_relative_content 0 _ _ _ _ (by norm_num) hsome⟩

/-- C4 counterexample: the knowledge base built from `datedRows` contains a Fact
whose content embeds the eighth row's literal calendar date — rows at index 7 and
beyond render `"On {row.date}, ..."` — so Fact content does leak exact calendar
dates. -/
theorem csv_fact_leaks_date :
    "On 2024-01-01, your recovery score % was 55" ∈
      (buildKnowledgeBase datedRows []).map (fun f => f.content) ∧
    jsIncludes "On 2024-01-01, your recovery score % was 55" "2024-01-01" = true := by
  refine ⟨?_, by decide⟩
  have hv : valToString (Value.num 55) = "55" := by
    have hden : ((55 : ℚ)).den = 1 := by norm_num
    have hnum : ((55 : ℚ)).num = 55 := by norm_num
    simp only [valToString, ratToString, hden, hnum, if_pos]
    decide
  have hsome : fieldFact 7 datedOldRow "recovery score %" (Value.num 55) =
      some { content := "On 2024-01-01, your recovery score % was 55"
             date := some "2024-01-01"
             metric := "recovery score %"
             value := "55"
             source := "csv_data"
             recency := some 7 } := by
    rw [fieldFact, if_neg (by decide)]
    have htr : (truthyVal (Value.num 55) &&
        decide (jsTrim (valToString (Value.num 55)) ≠ "")) = true := by
      rw [Bool.and_eq_true, decide_eq_true_iff]
      refine ⟨?_, by rw [hv]; decide⟩
      simp only [truthyVal]
      norm_num
    rw [if_pos htr]
    have hrv : renderFieldValue "recovery score %" (Value.num 55) = "55" := by
      rw [renderFieldValue, if_neg (by decide)]
      exact hv
    simp only [hrv]
    rfl
  have hmemrow : { content := "On 2024-01-01, your recovery score % was 55"
                   date := some "2024-01-01"
                   metric := "recovery score %"
                   value := "55"
                   source := "csv_data"
                   recency := some (7 : ℤ) } ∈ rowFacts 7 datedOldRow := by
    rw [rowFacts]
    refine List.mem_filterMap.mpr ⟨("recovery score %", Value.num 55), ?_, hsome⟩
    exact List.mem_cons_of_mem _ (List.mem_cons_self _ _)
  have hdebt : sleepDebtFacts datedRows = [] := by
    have hfilter : datedRows.filter hasSleepDebtField = [] := by decide
    rw [sleepDebtFacts, hfilter]
    rfl
  have hkb : buildKnowledgeBase datedRows [] =
      csvFactsAux 0 datedRows := by
    rw [buildKnowledgeBase, hdebt, csvFacts]
    simp [snapshotFacts]
  rw [hkb]
  refine List.mem_map.mpr
    ⟨Fact.mk "On 2024-01-01, your recovery score % was 55" (some "2024-01-01")
      "recovery score %" "55" "csv_data" (some 7), ?_, rfl⟩
  rw [datedRows]
  simp only [csvFactsAux]
  refine List.mem_append_right _ (List.mem_append_right _ (List.mem_append_right _
    (List.mem_append_right _ (List.mem_append_right _ (List.mem_append_right _
      (List.mem_append_right _ (List.mem_append_left _ hmemrow)))))))

/-- C5: the confidence helper's penalty test divides the variance by the mean —
not the standard deviation by the mean, as both the claim and the code's own
comment (coefficient of variation) describe.  On `confVarSeries` the code's ratio
is 54/133 ≈ 0.41 > 0.3, so the code multiplies the 0.9 base by 0.8 and returns
0.72, while the claimed stdev-based rule leaves it at 0.9 (the third conjunct
certifies stdev/mean ≤ 0.3, squared form). -/
theorem calculateConfidence_uses_variance_over_mean :
    calculateConfidence [confVarSeries] = 18/25 ∧
    calculateConfidenceClaim [confVarSeries] = 9/10 ∧
    calculateVariance (confVarSeries.take 7) ≤
      ((3/10) * ((confVarSeries.take 7).sum / ((confVarSeries.take 7).length : ℚ))) ^ 2 ∧
    (18/25 : ℚ) ≠ 9/10 := by
  refine ⟨?_, ?_, ?_, by norm_num⟩
  · norm_num [calculateConfidence, cvExceeds, calculateVariance, confVarSeries,
      min_def, max_def]
  · norm_num [calculateConfidenceClaim, cvExceedsClaim, calculateVariance,
      confVarSeries, min_def, max_def]
  · norm_num [calculateVariance, confVarSeries]

lemma trailingRiskRun_nil : trailingRiskRun [] = 0 := rfl

lemma trailingRiskRun_concat (l : List (ℚ × ℚ)) (p : ℚ × ℚ) :
    trailingRiskRun (l ++ [p]) =
      if riskDay p then trailingRiskRun l + 1 else 0 := by
  rw [trailingRiskRun, List.reverse_append]
  by_cases hp : riskDay p
  · simp [List.takeWhile_cons, hp, trailingRiskRun, Nat.add_comm]
  · simp [List.takeWhile_cons, hp]

/-- The running score accumulated by the injury-risk loop is 15 per matching
day; a non-matching day never decrements it. -/
lemma injuryLoop_snd (l : List (ℚ × ℚ)) (c r : ℤ) :
    (l.foldl riskStep (c, r)).2 = r + 15 * (l.countP riskDay : ℤ) := by
  induction l generalizing c r with
  | nil => simp
  | cons p ps ih =>
      rw [List.foldl_cons, riskStep]
      by_cases hp : riskDay p
      · rw [if_pos hp, ih, List.countP_cons]
        simp [hp]
        ring
      · rw [if_neg hp, ih, List.countP_cons]
        simp [hp]

/-- The consecutive-day counter at the end of the injury-risk loop is the length
of the trailing all-risk run (plus the initial value when every day matches). -/
lemma injuryLoop_fst (l : List (ℚ × ℚ)) (c r : ℤ) :
    (l.foldl riskStep (c, r)).1 =
      if l.all riskDay then c + (l.length : ℤ) else (trailingRiskRun l : ℤ) := by
  induction l using List.reverseRecOn generalizing c r with
  | nil => simp
  | append_singleton l p ih =>
      rw [List.foldl_append, List.foldl_cons, List.foldl_nil, riskStep]
      by_cases hp : riskDay p
      · rw [if_pos hp]
        by_cases hall : l.all riskDay
        · have hall2 : (l ++ [p]).all riskDay = true := by
            simp [List.all_append, hall, hp]
          rw [ih, if_pos hall, if_pos hall2]
          simp only [List.length_append, List.length_singleton]
          push_cast
          omega
        · have hall2 : ¬ (l ++ [p]).all riskDay = true := by
            simp [List.all_append, hall]
          rw [ih, if_neg hall, if_neg hall2, trailingRiskRun_concat, if_pos hp]
          push_cast
          ring
      · rw [if_neg hp]
        have hall2 : ¬ (l ++ [p]).all riskDay = true := by
          simp [List.all_append, hp]
        rw [if_neg hall2, trailingRiskRun_concat, if_neg hp]
        simp

/-- C6 (amended): over up to the 7 most recent aligned (strain, recovery) pairs,
each day with strain > 14 and recovery < 50 contributes 15 to the risk score and
a non-matching day resets only the consecutive-day counter; the one-time +25 is
added exactly when the counter is at least 3 when the scan ENDS — i.e. when the
trailing run of matching days has length ≥ 3 — not when it reached 3 at any
point; the HRV and strain-spike bonuses are then added and the result is capped
at 100 (and is never negative). -/
theorem injury_risk_score_characterization (recoveryData strainData hrvData : List ℚ) :
    injuryRiskScore recoveryData strainData hrvData =
      min 100 (15 * ((injuryPairs recoveryData strainData).countP riskDay : ℤ) +
        (if (trailingRiskRun (injuryPairs recoveryData strainData) : ℤ) ≥ 3
         then 25 else 0) +
        (if injuryHrvTrend hrvData < -(3/20) then 20 else 0) +
        strainSpikeBonus strainData) ∧
    0 ≤ injuryRiskScore recoveryData strainData hrvData ∧
    injuryRiskScore recoveryData strainData hrvData ≤ 100 := by
  set l := injuryPairs recoveryData strainData with hl
  have hfst : (injuryScan recoveryData strainData).1 = (trailingRiskRun l : ℤ) := by
    rw [injuryScan, ← hl, injuryLoop_fst]
    by_cases hall : l.all riskDay
    · rw [if_pos hall]
      have hrev : l.reverse.takeWhile riskDay = l.reverse :=
        List.takeWhile_eq_self_iff.mpr
          (fun x hx => (List.all_eq_true.mp hall) x (List.mem_reverse.mp hx))
      rw [trailingRiskRun, hrev, List.length_reverse]
      simp
    · rw [if_neg hall]
  have hsnd : (injuryScan recoveryData strainData).2 = 15 * (l.countP riskDay : ℤ) := by
    rw [injuryScan, ← hl, injuryLoop_snd]
    simp
  have hchar : injuryRiskScore recoveryData strainData hrvData =
      min 100 (15 * (l.countP riskDay : ℤ) +
        (if (trailingRiskRun l : ℤ) ≥ 3 then 25 else 0) +
        (if injuryHrvTrend hrvData < -(3/20) then 20 else 0) +
        strainSpikeBonus strainData) := by
    simp only [injuryRiskScore, hfst, hsnd, ← hl]
  refine ⟨hchar, ?_, ?_⟩
  · rw [hchar]
    refine le_min (by norm_num) ?_
    have h1 : (0 : ℤ) ≤ 15 * (l.countP riskDay : ℤ) := by positivity
    have h2 : (0 : ℤ) ≤ (if (trailingRiskRun l : ℤ) ≥ 3 then 25 else 0) := by
      split_ifs <;> norm_num
    have h3 : (0 : ℤ) ≤ (if injuryHrvTrend hrvData < -(3/20) then 20 else 0) := by
      split_ifs <;> norm_num
    have h4 : (0 : ℤ) ≤ strainSpikeBonus strainData := by
      rw [strainSpikeBonus]
      split_ifs <;> norm_num
    linarith
  · rw [hchar]
    exact min_le_left _ _

/-- C6 counterexample: the first three scanned days match (counter reaches 3
mid-scan) but the scan does not END in a matching run, so the code adds no +25:
it returns 3·15 = 45, whereas the claim's "at any point" rule would return 70. -/
theorem injury_risk_bonus_not_any_point :
    injuryRiskScore riskRec riskStr [] = 45 ∧
    injuryRiskScoreClaim riskRec riskStr [] = 70 ∧
    injuryRiskScore riskRec riskStr [] ≠ injuryRiskScoreClaim riskRec riskStr [] := by
  refine ⟨?_, ?_, ?_⟩
  · norm_num [injuryRiskScore, injuryScan, injuryPairs, riskStep, riskDay,
      injuryHrvTrend, strainSpikeBonus, riskRec, riskStr, min_def]
  · norm_num [injuryRiskScoreClaim, injuryPairs, riskStepClaim, riskDay,
      injuryHrvTrend, strainSpikeBonus, riskRec, riskStr, min_def]
  · norm_num [injuryRiskScore, injuryRiskScoreClaim, injuryScan, injuryPairs,
      riskStep, riskStepClaim, riskDay, injuryHrvTrend, strainSpikeBonus, riskRec,
      riskStr, min_def]

/-- C8: every forecaster whose minimum sample-size precondition fails returns its
zero-confidence "insufficient data" placeholder (a value, not an exception):
fewer than 7 recovery points for the recovery and injury-risk forecasts, fewer
than 5 sleep-need or sleep-duration points for the sleep-debt forecast, fewer
than 5 recovery points for the performance forecast.  And the list returned by
`generatePredictions` never contains a Prediction with confidence ≤ 0.6. -/
theorem insufficient_data_placeholder_and_filter :
    (∀ d : List MetricRow, (getMetricData d "recovery score %").length < 7 →
      predictRecoveryScore d =
        ⟨"recovery", 0, 0, "tomorrow", "Insufficient data", []⟩) ∧
    (∀ d : List MetricRow, (getMetricData d "recovery score %").length < 7 →
      assessInjuryRisk d =
        ⟨"injury_risk", 0, 0, "next 2 weeks",
          "Insufficient data for injury risk assessment", []⟩) ∧
    (∀ d : List MetricRow,
      (getMetricData d "sleep need (min)").length < 5 ∨
        (getMetricData d "asleep duration (min)").length < 5 →
      predictSleepDebt d =
        ⟨"sleep_debt", 0, 0, "current", "Insufficient sleep data", []⟩) ∧
    (∀ d : List MetricRow, (getMetricData d "recovery score %").length < 5 →
      predictPerformanceReadiness d =
        ⟨"performance", 0, 0, "next 3 days", "Insufficient performance data", []⟩) ∧
    (∀ (data : List MetricRow) (p : PredictionResult),
      p ∈ generatePredictions data → 3/5 < p.confidence) := by
  refine ⟨?_, ?_, ?_, ?_, ?_⟩
  · intro d h
    rw [predictRecoveryScore, if_pos h]
  · intro d h
    rw [assessInjuryRisk, if_pos (Or.inl h)]
  · intro d h
    rw [predictSleepDebt, if_pos h]
  · intro d h
    rw [predictPerformanceReadiness, if_pos h]
  · intro data p hp
    simp only [generatePredictions] at hp
    have h2 := (List.mem_filter.mp hp).2
    exact of_decide_eq_true h2

/-- Witness for C8: on empty data every forecaster returns its placeholder, and
on `steadyRows` the recovery forecast (confidence 9/14 > 0.6) is a member of the
returned list, which the theorem then certifies has confidence above 0.6. -/
theorem insufficient_data_placeholder_and_filter_witness :
    ((getMetricData [] "recovery score %").length < 7 ∧
      predictRecoveryScore [] =
        ⟨"recovery", 0, 0, "tomorrow", "Insufficient data", []⟩) ∧
    (assessInjuryRisk [] =
      ⟨"injury_risk", 0, 0, "next 2 weeks",
        "Insufficient data for injury risk assessment", []⟩) ∧
    (predictSleepDebt [] =
      ⟨"sleep_debt", 0, 0, "current", "Insufficient sleep data", []⟩) ∧
    (predictPerformanceReadiness [] =
      ⟨"performance", 0, 0, "next 3 days", "Insufficient performance data", []⟩) ∧
    (predictRecoveryScore (steadyRows.take 30) ∈ generatePredictions steadyRows ∧
      3/5 < (predictRecoveryScore (steadyRows.take 30)).confidence) := by
  have hrec : getMetricData steadyRows "recovery score %" =
      [60, 60, 60, 60, 60, 60, 60, 60, 60] := by decide
  have hstr : getMetricData steadyRows "day strain" =
      [10, 10, 10, 10, 10, 10, 10, 10, 10] := by decide
  have hslp : getMetricData steadyRows "sleep performance %" =
      [80, 80, 80, 80, 80, 80, 80, 80, 80] := by decide
  have htake : steadyRows.take 30 = steadyRows := rfl
  have hconf : (predictRecoveryScore (steadyRows.take 30)).confidence = 9/14 := by
    rw [htake, predictRecoveryScore, hrec]
    rw [if_neg (by norm_num)]
    show calculateConfidence _ = 9/14
    rw [hstr, hslp]
    norm_num [calculateConfidence, cvExceeds, calculateVariance, min_def, max_def]
  have hmem : predictRecoveryScore (steadyRows.take 30) ∈
      generatePredictions steadyRows := by
    rw [generatePredictions]
    refine List.mem_filter.mpr ⟨List.mem_cons_self _ _, ?_⟩
    rw [decide_eq_true_iff, hconf]
    norm_num
  refine ⟨⟨by decide, ?_⟩, ?_, ?_, ?_, hmem,
    (insufficient_data_placeholder_and_filter).2.2.2.2 steadyRows _ hmem⟩
  · exact (insufficient_data_placeholder_and_filter).1 [] (by decide)
  · exact (insufficient_data_placeholder_and_filter).2.1 [] (by decide)
  · exact (insufficient_data_placeholder_and_filter).2.2.1 []
      (Or.inl (by decide))
  · exact (insufficient_data_placeholder_and_filter).2.2.2.1 [] (by decide)

/-! ### Ranking facts for C7 -/

lemma mem_insertDesc (p q : Fact × ℤ) (l : List (Fact × ℤ)) :
    q ∈ insertDesc p l ↔ q = p ∨ q ∈ l := by
  induction l with
  | nil => simp [insertDesc]
  | cons x xs ih =>
      rw [insertDesc]
      split_ifs with hx
      · simp
      · simp only [List.mem_cons, ih]
        tauto

lemma mem_sortDesc (q : Fact × ℤ) (l : List (Fact × ℤ)) :
    q ∈ sortDesc l ↔ q ∈ l := by
  induction l with
  | nil => simp [sortDesc]
  | cons x xs ih =>
      rw [sortDesc, mem_insertDesc]
      simp [ih]

lemma pairwise_insertDesc (p : Fact × ℤ) (l : List (Fact × ℤ))
    (hl : l.Pairwise (fun a b => b.2 ≤ a.2)) :
    (insertDesc p l).Pairwise (fun a b => b.2 ≤ a.2) := by
  induction l with
  | nil => simp [insertDesc]
  | cons x xs ih =>
      rw [insertDesc]
      rw [List.pairwise_cons] at hl
      split_ifs with hx
      · rw [List.pairwise_cons]
        refine ⟨?_, List.pairwise_cons.mpr hl⟩
        intro q hq
        rcases List.mem_cons.mp hq with hq | hq
        · rw [hq]; exact hx
        · exact le_trans (hl.1 q hq) hx
      · rw [List.pairwise_cons]
        refine ⟨?_, ih hl.2⟩
        intro q hq
        rcases (mem_insertDesc p q xs).mp hq with hq | hq
        · rw [hq]; exact le_of_not_le hx
        · exact hl.1 q hq

lemma pairwise_sortDesc (l : List (Fact × ℤ)) :
    (sortDesc l).Pairwise (fun a b => b.2 ≤ a.2) := by
  induction l with
  | nil => simp [sortDesc]
  | cons x xs ih => exact pairwise_insertDesc x (sortDesc xs) ih

/-- Every entry of the ranking is a fact of the input paired with its score,
and that score is positive. -/
lemma rankedScored_entry (query : String) (facts : List Fact) (p : Fact × ℤ)
    (hp : p ∈ rankedScored query facts) :
    p.1 ∈ facts ∧ p.2 = factScoreQ query p.1 ∧ 0 < p.2 := by
  rw [rankedScored, mem_sortDesc] at hp
  have h1 := List.mem_filter.mp hp
  obtain ⟨f, hf, hfp⟩ := List.mem_map.mp h1.1
  have hpos : 0 < p.2 := by
    have := h1.2
    rwa [decide_eq_true_iff] at this
  subst hfp
  exact ⟨hf, rfl, hpos⟩

/-- Each per-term score of the retriever is nonnegative. -/
lemma termScore_nonneg (content metric : String) (cw mw : List String) (w : String) :
    0 ≤ termScore content metric cw mw w := by
  rw [termScore]
  split_ifs <;> norm_num

/-- The recency bonuses are nonnegative. -/
lemma recencyBonus_nonneg (temporal : Bool) (recency : Option ℤ) :
    0 ≤ recencyBonus temporal recency := by
  rcases recency with _ | r
  · simp [recencyBonus]
  · simp only [recencyBonus]
    split_ifs <;> norm_num

/-- For the query "sleep debt", a `sleep_debt_tracking` Fact scores at least 50. -/
lemma factScoreQ_tracking_ge (f : Fact) (hsrc : f.source = "sleep_debt_tracking") :
    50 ≤ factScoreQ "sleep debt" f := by
  rw [factScoreQ]
  have hq : jsToLower "sleep debt" = "sleep debt" := by decide
  rw [hq, factScore]
  have hterm : 0 ≤ ((expandQuery "sleep debt").map
      (termScore (jsToLower f.content) (jsToLower f.metric)
        (jsSplitWs (jsToLower f.content)) (jsSplitWs (jsToLower f.metric)))).sum :=
    List.sum_nonneg (by
      intro x hx
      obtain ⟨w, hw, hwx⟩ := List.mem_map.mp hx
      rw [← hwx]
      exact termScore_nonneg _ _ _ _ _)
  have h50 : (if jsIncludes "sleep debt" "sleep debt" &&
      f.source == "sleep_debt_tracking" then (50 : ℤ) else 0) = 50 := by
    rw [if_pos]
    rw [Bool.and_eq_true]
    exact ⟨by decide, by rw [hsrc]; decide⟩
  have h45 : (0 : ℤ) ≤ (if jsIncludes "sleep debt" "sleep debt" &&
      f.source == "sleep_debt_analysis" then (45 : ℤ) else 0) := by
    split_ifs <;> norm_num
  have h5 : (0 : ℤ) ≤ (if f.source == "current_metrics" then (5 : ℤ) else 0) := by
    split_ifs <;> norm_num
  have hrec := recencyBonus_nonneg (isTemporalQuery "sleep debt") f.recency
  rw [h50]
  linarith

/-- C7 (amended): for the query "sleep debt", every `sleep_debt_tracking` Fact
scores at least 50 (hence above 0) and is ranked strictly above every Fact whose
source is neither `sleep_debt_tracking` nor `sleep_debt_analysis` AND whose own
total score stays below 50 — the bound the +50 boost guarantees.  (Without that
bound the original claim fails: a Fact whose metric matches enough expanded query
terms can outscore a tracking Fact, see the counterexample.) -/
theorem sleep_debt_tracking_ranked_first (facts : List Fact) (t o : Fact)
    (ht : t.source = "sleep_debt_tracking")
    (ho1 : o.source ≠ "sleep_debt_tracking")
    (ho2 : o.source ≠ "sleep_debt_analysis")
    (hlow : factScoreQ "sleep debt" o < 50) :
    0 < factScoreQ "sleep debt" t ∧ ranksAbove "sleep debt" facts t o := by
  have htge := factScoreQ_tracking_ge t ht
  refine ⟨by linarith, ?_⟩
  intro i j hi hj hit hjo
  have hij : i ≠ j := by
    intro hij
    subst hij
    have hto : t = o := by rw [← hit, ← hjo]
    exact ho1 (by rw [← hto]; exact ht)
  rcases Nat.lt_or_ge i j with h | h
  · exact h
  · exfalso
    have hlt : j < i := lt_of_le_of_ne h (Ne.symm hij)
    have hpair := pairwise_sortDesc
      ((facts.map (fun f => (f, factScoreQ "sleep debt" f))).filter
        (fun p => p.2 > 0))
    have hsorted := List.pairwise_iff_get.mp hpair ⟨j, hj⟩ ⟨i, hi⟩ hlt
    have hmi := rankedScored_entry "sleep debt" facts _
      (List.get_mem (rankedScored "sleep debt" facts) i hi)
    have hmj := rankedScored_entry "sleep debt" facts _
      (List.get_mem (rankedScored "sleep debt" facts) j hj)
    rw [hit] at hmi
    rw [hjo] at hmj
    have h1 : ((rankedScored "sleep debt" facts).get ⟨i, hi⟩).2 =
        factScoreQ "sleep debt" t := hmi.2.1
    have h2 : ((rankedScored "sleep debt" facts).get ⟨j, hj⟩).2 =
        factScoreQ "sleep debt" o := hmj.2.1
    have : ((rankedScored "sleep debt" facts).get ⟨i, hi⟩).2 ≤
        ((rankedScored "sleep debt" facts).get ⟨j, hj⟩).2 := hsorted
    rw [h1, h2] at this
    linarith

/-- Witness for C7's amended statement: a knowledge base holding an ordinary
sleep-debt CSV Fact (score 19 < 50) and a tracking Fact; the theorem ranks the
tracking Fact strictly above it. -/
theorem sleep_debt_tracking_ranked_first_witness :
    0 < factScoreQ "sleep debt"
        (Fact.mk "Sleep debt most recent night: +1.0 hours (moderate debt)" none
          "Sleep Debt Analysis" "60" "sleep_debt_tracking" (some 0)) ∧
    ranksAbove "sleep debt"
      [Fact.mk "most recently, your sleep debt (min) was 1h 0m" (some "day 1")
        "sleep debt (min)" "1h 0m" "csv_data" (some 0),
       Fact.mk "Sleep debt most recent night: +1.0 hours (moderate debt)" none
        "Sleep Debt Analysis" "60" "sleep_debt_tracking" (some 0)]
      (Fact.mk "Sleep debt most recent night: +1.0 hours (moderate debt)" none
        "Sleep Debt Analysis" "60" "sleep_debt_tracking" (some 0))
      (Fact.mk "most recently, your sleep debt (min) was 1h 0m" (some "day 1")
        "sleep debt (min)" "1h 0m" "csv_data" (some 0)) :=
  sleep_debt_tracking_ranked_first _ _ _ rfl (by decide) (by decide) (by decide)

lemma ratToString_sixty : ratToString (60 : ℚ) = "60" := by
  have hden : ((60 : ℚ)).den = 1 := by norm_num
  have hnum : ((60 : ℚ)).num = 60 := by norm_num
  simp only [ratToString, hden, hnum, if_pos]
  decide

lemma toFixed1_one (q : ℚ) (hq : q = 1) : toFixed1 q = "1.0" := by
  subst hq
  rw [toFixed1, if_neg (by norm_num), toFixed1Nonneg]
  have hn : (⌊(1 : ℚ) * 10 + 1/2⌋ : ℤ) = 10 := by norm_num
  rw [hn]
  decide

lemma formatDuration_five : formatDuration (5 : ℚ) = "0h 5m" := by
  have hh : durHours (5 : ℚ) = 0 := by rw [durHours]; norm_num
  have ht : ratTrunc ((5 : ℚ) / 60) = 0 := by
    rw [ratTrunc, if_pos (by norm_num)]
    norm_num
  have hm : durMins (5 : ℚ) = 5 := by
    rw [durMins, jsMod, ht]
    norm_num [jsRound]
  rw [formatDuration, hh, hm]
  rfl

lemma formatDuration_sixty : formatDuration (60 : ℚ) = "1h 0m" := by
  have hh : durHours (60 : ℚ) = 1 := by rw [durHours]; norm_num
  have ht : ratTrunc ((60 : ℚ) / 60) = 1 := by
    rw [ratTrunc, if_pos (by norm_num)]
    norm_num
  have hm : durMins (60 : ℚ) = 0 := by
    rw [durMins, jsMod, ht]
    norm_num [jsRound]
  rw [formatDuration, hh, hm]
  rfl

lemma craftedRow_facts : rowFacts 0 craftedRow = [craftedFact, debtMinFact] := by
  have h5 : valToString (Value.num 5) = "5" := by
    have hden : ((5 : ℚ)).den = 1 := by norm_num
    have hnum : ((5 : ℚ)).num = 5 := by norm_num
    simp only [valToString, ratToString, hden, hnum, if_pos]
    decide
  have h60 : valToString (Value.num 60) = "60" := by
    simp only [valToString, ratToString_sixty]
  have hf1 : fieldFact 0 [(craftedKey, Value.num 5), ("sleep debt (min)", Value.num 60)]
      craftedKey (Value.num 5) = some craftedFact := by
    rw [fieldFact, if_neg (by decide)]
    have htr : (truthyVal (Value.num 5) &&
        decide (jsTrim (valToString (Value.num 5)) ≠ "")) = true := by
      rw [Bool.and_eq_true, decide_eq_true_iff]
      refine ⟨?_, by rw [h5]; decide⟩
      simp only [truthyVal]
      norm_num
    rw [if_pos htr]
    have hrv : renderFieldValue craftedKey (Value.num 5) = "0h 5m" := by
      rw [renderFieldValue, if_pos (by decide)]
      simp only [parseFloatVal]
      exact formatDuration_five
    simp only [hrv]
    rfl
  have hf2 : fieldFact 0 [(craftedKey, Value.num 5), ("sleep debt (min)", Value.num 60)]
      "sleep debt (min)" (Value.num 60) = some debtMinFact := by
    rw [fieldFact, if_neg (by decide)]
    have htr : (truthyVal (Value.num 60) &&
        decide (jsTrim (valToString (Value.num 60)) ≠ "")) = true := by
      rw [Bool.and_eq_true, decide_eq_true_iff]
      refine ⟨?_, by rw [h60]; decide⟩
      simp only [truthyVal]
      norm_num
    rw [if_pos htr]
    have hrv : renderFieldValue "sleep debt (min)" (Value.num 60) = "1h 0m" := by
      rw [renderFieldValue, if_pos (by decide)]
      simp only [parseFloatVal]
      exact formatDuration_sixty
    simp only [hrv]
    rfl
  rw [rowFacts, craftedRow]
  simp only [List.filterMap_cons, List.filterMap_nil, hf1, hf2]

lemma craftedRow_debt_facts : sleepDebtFacts craftedRows = [trackingFact, analysisFact] := by
  have hdm : sleepDebtMinutes craftedRow = 60 := by decide
  have hfil : craftedRows.filter hasSleepDebtField = [craftedRow] := by decide
  have htrack : sleepDebtFact 0 craftedRow = trackingFact := by
    simp only [sleepDebtFact, hdm]
    have hsign : (if (60 : ℚ) ≥ 0 then "+" else "") = "+" := by norm_num
    have htf : toFixed1 (|(60 : ℚ)| / 60) = "1.0" := toFixed1_one _ (by norm_num)
    have hst : debtStatus 60 = "moderate debt" := by
      rw [debtStatus, if_neg (by norm_num), if_pos (by norm_num)]
    rw [hsign, htf, hst, ratToString_sixty]
    rfl
  rw [sleepDebtFacts, hfil]
  have htake : ([craftedRow] : List MetricRow).take 7 = [craftedRow] := rfl
  rw [htake]
  rw [if_neg (by decide)]
  have hsum : (List.map sleepDebtMinutes [craftedRow]).sum = 60 := by
    simp only [List.map_cons, List.map_nil, List.sum_cons, List.sum_nil, hdm]
    norm_num
  have hlen : (([craftedRow] : List MetricRow).length : ℚ) = 1 := by
    simp
  simp only [hsum, hlen]
  have havg : (60 : ℚ) / 1 = 60 := by norm_num
  rw [havg]
  have htf2 : toFixed1 ((60 : ℚ) / 60) = "1.0" := toFixed1_one _ (by norm_num)
  have hts : debtTrendStatus 60 = "accumulating debt" := by
    rw [debtTrendStatus, if_pos (by norm_num)]
  rw [htf2, hts, ratToString_sixty]
  simp only [sleepDebtFactsAux, htrack]
  rfl

/-- The knowledge base built from the crafted row. -/
lemma craftedRows_build : buildKnowledgeBase craftedRows [] =
    [craftedFact, debtMinFact, trackingFact, analysisFact] := by
  rw [buildKnowledgeBase, craftedRow_debt_facts]
  have hcsv : csvFacts craftedRows = [craftedFact, debtMinFact] := by
    rw [csvFacts, craftedRows]
    simp only [csvFactsAux, List.append_nil]
    exact craftedRow_facts
  rw [hcsv]
  rfl

/-- C7 counterexample: on the knowledge base built from `craftedRows`, the query
"sleep debt" ranks the crafted `csv_data` Fact (score 75) strictly ABOVE the
`sleep_debt_tracking` Fact (score 69 > 0), refuting the claim that tracking
Facts always outrank every non-sleep-debt-source Fact. -/
theorem sleep_debt_tracking_outranked :
    buildKnowledgeBase craftedRows [] =
      [craftedFact, debtMinFact, trackingFact, analysisFact] ∧
    (rankedScored "sleep debt" (buildKnowledgeBase craftedRows [])).map
        (fun p => (p.1.source, p.2)) =
      [("csv_data", 75), ("sleep_debt_tracking", 69), ("sleep_debt_analysis", 64),
       ("csv_data", 19)] ∧
    craftedFact.source = "csv_data" ∧ craftedFact.source ≠ "sleep_debt_analysis" := by
  refine ⟨craftedRows_build, ?_, rfl, by decide⟩
  rw [craftedRows_build]
  decide

end WhoopCoach
